import Mathlib

/-!
# Verification of the J-QUANTS report pipeline

Shallow embedding, in Lean 4, of the core pipeline of the repository:

* `src/analysis/calculator.py` — growth-rate / per-year metric computation;
* `src/api/edinet_client.py` — document discovery (`search_documents`) and
  per-year report collection (`fetch_reports`);
* `src/analysis/xbrl_parser.py` — section extraction
  (`extract_sections_by_type`).

Conventions of the embedding:

* Python strings are modelled as `List Char` (`Str`); Python `dict`s as
  insertion-ordered association lists updated in place (`setKey`), which is
  exactly CPython's observable dict behaviour (assignment to an existing key
  keeps its position, lookup returns the last assigned value).
* Python floats are modelled as rationals `ℚ`; `math.pow` (real powered
  exponentiation) as `Real.rpow`.  IEEE NaN/inf are not modelled.
* `None`-or-value is `Option`; dynamically typed dict entries are the
  inductive `RawValue`.
-/

namespace JQR

/-- Python strings, modelled as lists of characters. -/
abbrev Str := List Char

/-- Character list of a Lean string literal. -/
def lit (s : String) : Str := s.toList

/-- Python `needle in hay` (substring containment). -/
def isSubstring (needle : Str) : Str → Bool
  | [] => needle.isEmpty
  | c :: rest => needle.isPrefixOf (c :: rest) || isSubstring needle (c :: rest).tail

/-- Python `str.zfill n` for digit strings: left-pad with `'0'` to length `n`. -/
def zfill (n : ℕ) (s : Str) : Str := List.replicate (n - s.length) '0' ++ s

/-- Python `str.strip()` (remove leading and trailing whitespace). -/
def pyStrip (s : Str) : Str :=
  ((s.dropWhile Char.isWhitespace).reverse.dropWhile Char.isWhitespace).reverse

/-- Python `str.split '\n'`. -/
def splitNl : Str → List Str
  | [] => [[]]
  | c :: rest =>
    if c = '\n' then [] :: splitNl rest
    else
      match splitNl rest with
      | [] => [[c]]
      | h :: t => (c :: h) :: t

/-- Python `'\n'.join`. -/
def joinNl (lines : List Str) : Str := List.intercalate [Char.ofNat 10] lines

section Assoc

variable {κ : Type} {α : Type} [DecidableEq κ]

/-- Lookup in an association list (first binding of the key wins; our
`setKey` keeps at most one binding per key). -/
def lookupKey (k : κ) : List (κ × α) → Option α
  | [] => none
  | (k', v) :: rest => if k' = k then some v else lookupKey k rest

/-- CPython dict assignment `m[k] = v`: replace the value in place if the key
exists (keeping its position), else append the new binding. -/
def setKey : List (κ × α) → κ → α → List (κ × α)
  | [], k, v => [(k, v)]
  | (k', v') :: rest, k, v =>
    if k' = k then (k, v) :: rest else (k', v') :: setKey rest k v

/-- Fold a list of assignments into a dict, left to right. -/
def upserts (init : List (κ × α)) (l : List (κ × α)) : List (κ × α) :=
  l.foldl (fun m p => setKey m p.1 p.2) init

/-- The last element of a list satisfying `P`, if any. -/
def lastWith (P : α → Bool) : List α → Option α
  | [] => none
  | a :: rest =>
    match lastWith P rest with
    | some b => some b
    | none => if P a then some a else none

end Assoc



/-! ## Calculator (`src/analysis/calculator.py`) -/

namespace Calc

/-- A dynamically typed value stored in an annual-data record: `null` is
Python `None`, `num` an `int`/`float`, `strNum q` a string parsing (via
`float`) to `q`, `strBad` a string that does not parse, `other` any other
type. -/
inductive RawValue where
  | null
  | num (q : ℚ)
  | strNum (q : ℚ)
  | strBad
  | other
deriving DecidableEq

/-- `to_float` from `calculate_metrics_flexible`: numbers pass through,
strings are parsed with `float(...)`, anything else becomes `None`. -/
def to_float : RawValue → Option ℚ
  | .null => none
  | .num q => some q
  | .strNum q => some q
  | .strBad => none
  | .other => none

/-- `calculate_yoy_growth` (calculator.py lines 20-47): year-over-year
growth, `None` when either value is missing or non-positive. -/
def calculate_yoy_growth (current_value previous_value : Option ℚ) : Option ℚ :=
  match current_value, previous_value with
  | some c, some p =>
    if p ≤ 0 then none
    else if c ≤ 0 then none
    else some ((c / p - 1) * 100)
  | _, _ => none

/-- `calculate_cagr` (calculator.py lines 50-82): compound annual growth
rate via `math.pow` (real exponentiation), `None` when an endpoint is
missing or non-positive or `years ≤ 0`. -/
noncomputable def calculate_cagr (latest_value oldest_value : Option ℚ)
    (years : ℤ) : Option ℝ :=
  match latest_value, oldest_value with
  | some l, some o =>
    if o ≤ 0 then none
    else if l ≤ 0 then none
    else if years ≤ 0 then none
    else some ((((l : ℝ) / (o : ℝ)) ^ ((1 : ℝ) / (years : ℝ)) - 1) * 100)
  | _, _ => none

/-- The `valid_values` list of `calculate_growth_rate`: drop `None`s. -/
def validValues (values : List (Option ℚ)) : List ℚ := values.filterMap id

/-- `calculate_growth_rate` (calculator.py lines 85-118): dispatch on the
number of non-`None` values — YoY for exactly two, CAGR over `n-1`
periods for three or more, `None` below two. -/
noncomputable def calculate_growth_rate (values : List (Option ℚ)) : Option ℝ :=
  if values.length < 2 then none
  else
    let valid := validValues values
    if valid.length < 2 then none
    else
      let latest := valid.headI
      let oldest := valid.getLastI
      if valid.length = 2 then
        (calculate_yoy_growth (some latest) (some oldest)).map (fun q => (q : ℝ))
      else
        calculate_cagr (some latest) (some oldest) ((valid.length : ℤ) - 1)

/-- One annual record, as consumed by the per-year loop of
`calculate_metrics_flexible` (lines 258-351).  `fy_end` is the `CurFYEn`
string (`[]` models a missing/empty value). -/
structure YearData where
  fy_end : Str
  sales : RawValue
  op : RawValue
  np : RawValue
  eq : RawValue
  cfo : RawValue
  cfi : RawValue
  eps : RawValue
  bps : RawValue
  payoutRatioAnn : RawValue
deriving DecidableEq

/-- One entry of `years_metrics` (lines 334-350). -/
structure YearMetric where
  fy_end : Str
  sales : Option ℚ
  op : Option ℚ
  np : Option ℚ
  eq : Option ℚ
  cfo : Option ℚ
  cfi : Option ℚ
  fcf : Option ℚ
  roe : Option ℚ
  eps : Option ℚ
  bps : Option ℚ
  price : Option ℚ
  per : Option ℚ
  pbr : Option ℚ
  payout_ratio : Option ℚ
deriving DecidableEq

/-- The price lookup of lines 303-312: exact `fy_end` key first, then the
dash-stripped key; no lookup when the price dict or the key is empty
(Python truthiness of `prices` and `fy_end`). -/
def lookup_price (prices : List (Str × ℚ)) (fy_end : Str) : Option ℚ :=
  if prices = [] ∨ fy_end = [] then none
  else
    match lookupKey fy_end prices with
    | some p => some p
    | none => lookupKey (fy_end.filter (fun c => ¬ c = '-')) prices

/-- The body of the per-year loop of `calculate_metrics_flexible`
(lines 258-351): convert raw fields with `to_float`, then FCF, ROE
(guarded by `eq != 0`), price lookup, PER and PBR (guarded by a strictly
positive per-share denominator), and the payout ratio rescaled by 100. -/
def yearMetric (prices : List (Str × ℚ)) (d : YearData) : YearMetric :=
  let sales := to_float d.sales
  let op := to_float d.op
  let np := to_float d.np
  let eq := to_float d.eq
  let cfo := to_float d.cfo
  let cfi := to_float d.cfi
  let eps := to_float d.eps
  let bps := to_float d.bps
  let payout_ratio_raw := to_float d.payoutRatioAnn
  let payout_ratio := payout_ratio_raw.map (fun r => r * 100)
  let fcf : Option ℚ :=
    match cfo, cfi with
    | some a, some b => some (a + b)
    | _, _ => none
  let roe : Option ℚ :=
    match np, eq with
    | some n, some e => if ¬ e = 0 then some (n / e * 100) else none
    | _, _ => none
  let price := lookup_price prices d.fy_end
  let per : Option ℚ :=
    match price, eps with
    | some p, some e => if 0 < e then some (p / e) else none
    | _, _ => none
  let pbr : Option ℚ :=
    match price, bps with
    | some p, some b => if 0 < b then some (p / b) else none
    | _, _ => none
  { fy_end := d.fy_end, sales := sales, op := op, np := np, eq := eq,
    cfo := cfo, cfi := cfi, fcf := fcf, roe := roe, eps := eps, bps := bps,
    price := price, per := per, pbr := pbr, payout_ratio := payout_ratio }

/-- The payout-growth block of `calculate_metrics_flexible`
(lines 416-425): collect the non-`None` rescaled payout ratios and feed
them to `calculate_growth_rate` when at least two remain. -/
noncomputable def payout_growth (years_metrics : List YearMetric) : Option ℝ :=
  let payout_values := years_metrics.filterMap (fun y => y.payout_ratio)
  if 2 ≤ payout_values.length then
    calculate_growth_rate (payout_values.map some)
  else none

end Calc

/-! ## EDINET client (`src/api/edinet_client.py`) -/

namespace Edinet

/-- The `periodEnd` field of a filing candidate, as seen through
`datetime.strptime(period_end[:10], "%Y-%m-%d")`: `missing` is Python
`None` or `""` (falsy), `valid y m` a string parsing to a date with year
`y` and month `m`, `malformed` a non-empty string that fails to parse. -/
inductive PeriodEnd where
  | missing
  | valid (y : ℤ) (m : ℕ)
  | malformed
deriving DecidableEq

/-- One entry of the EDINET daily listing (`results` array), restricted to
the fields `search_documents` / `fetch_reports` read.  `docID = []` models a
missing/empty id, `secCode = none` Python `None`. -/
structure EdinetDoc where
  docID : Str
  ordinanceCode : Str
  docTypeCode : Str
  secCode : Option Str
  docDescription : Str
  periodEnd : PeriodEnd
deriving DecidableEq

/-- Lines 608-621: ordinance code 010/020 and (a 030/050 type-code prefix or
a report name inside the description). -/
def is_target_report (d : EdinetDoc) : Bool :=
  (d.ordinanceCode = lit "010" || d.ordinanceCode = lit "020")
  && ((¬ d.docTypeCode = [] && 3 ≤ d.docTypeCode.length
        && (d.docTypeCode.take 3 = lit "030" || d.docTypeCode.take 3 = lit "050"))
      || (¬ d.docDescription = []
          && (isSubstring (lit "有価証券報告書") d.docDescription
              || isSubstring (lit "半期報告書") d.docDescription)))

/-- Lines 626-630: amendments (訂正/補正 in the description) are dropped. -/
def is_amendment (d : EdinetDoc) : Bool :=
  ¬ d.docDescription = []
  && (isSubstring (lit "訂正") d.docDescription
      || isSubstring (lit "補正") d.docDescription)

/-- Lines 590-645: keep target, non-amendment documents carrying a security
code, deduplicated by `docID` (first occurrence wins; falsy ids dropped). -/
def dedup_documents (seen : List Str) : List EdinetDoc → List EdinetDoc
  | [] => []
  | d :: rest =>
    if ¬ is_target_report d then dedup_documents seen rest
    else if is_amendment d then dedup_documents seen rest
    else if d.secCode = none then dedup_documents seen rest
    else if ¬ d.docID = [] && ¬ seen.contains d.docID then
      d :: dedup_documents (d.docID :: seen) rest
    else dedup_documents seen rest

/-- Line 723: half-year detection inside the match loop. -/
def is_half_year (d : EdinetDoc) : Bool :=
  isSubstring (lit "半期報告書") d.docDescription || d.docTypeCode.take 3 = lit "050"

/-- Lines 720-744: fiscal year of a candidate from `periodEnd` (month 3 →
previous year), with the half-year ±1 adjustment; `none` when the period
end is absent or unparseable. -/
def doc_year_in_match (year : ℤ) (d : EdinetDoc) : Option ℤ :=
  match d.periodEnd with
  | .valid y m =>
    let base := if m = 3 then y - 1 else y
    if is_half_year d && m = 3 && (base = year || base = year + 1) then some year
    else some base
  | _ => none

/-- Lines 762-773: the `is_match` disjunction of the security-code filter,
exactly as written (seven clauses). -/
def is_match (code sec_code_str : Str) : Bool :=
  let code_4digit := if 4 ≤ code.length then code.take 4 else code
  let code_5digit := if code.length < 5 then zfill 5 code else code
  let sec_code_normalized := zfill 5 sec_code_str
  let code_normalized := zfill 5 code
  sec_code_str = code_4digit
  || sec_code_str = code_5digit
  || sec_code_str = code
  || sec_code_normalized = code_normalized
  || code_4digit.isPrefixOf sec_code_str
  || sec_code_normalized.take 4 = code_normalized.take 4
  || (sec_code_str.length = 5 && sec_code_str.take 4 = code_4digit)

/-- Lines 706-785: acceptance of one deduplicated candidate for `(code,
year)` — a present security code, year agreement when a year could be
derived, and `is_match` on the stripped code string. -/
def accept_doc (code : Str) (year : ℤ) (d : EdinetDoc) : Bool :=
  match d.secCode with
  | none => false
  | some sc =>
    let sec_code_str := pyStrip sc
    match doc_year_in_match year d with
    | some dy => if ¬ dy = year then false else is_match code sec_code_str
    | none => is_match code sec_code_str

/-- One iteration of the year loop of `search_documents` (lines 243-800):
given the union of the daily listings fetched for that year, deduplicate,
filter and match. -/
def filter_year (code : Str) (year : ℤ) (year_documents : List EdinetDoc) :
    List EdinetDoc :=
  (dedup_documents [] year_documents).filter (accept_doc code year)

/-- `search_documents` (lines 149-802): the year loop accumulates every
year's accepted matches into `all_documents`; `fetch` abstracts the
date-fanned-out daily-listing requests of one year.  With no API key the
search is skipped. -/
def search_documents (has_key : Bool) (code : Str) (years : List ℤ)
    (fetch : ℤ → List EdinetDoc) : List EdinetDoc :=
  if ¬ has_key then []
  else
    years.foldl
      (fun all_documents year =>
        let filtered := filter_year code year (fetch year)
        if ¬ filtered = [] then all_documents ++ filtered else all_documents)
      []

/-- Modelled from the spec (§4.1): the three matching rules the spec
states — exact 4-digit equality, exact zero-padded 5-digit equality, or
the input's 4 digits against the leading 4 digits of a 5-digit index
code.  Stated for comparison against `is_match`. -/
def specMatch (code sec : Str) : Bool :=
  (code.length = 4 && sec = code)
  || (sec.length = 5 && sec = zfill 5 code)
  || (code.length = 4 && sec.length = 5 && sec.take 4 = code)

/-- Lines 959-998 of `fetch_reports`: the fiscal year a document is filed
under — from `periodEnd` when it parses (month 3 → previous year),
otherwise the maximum searched year (skip when no years). -/
def resolve_year (years : List ℤ) (pe : PeriodEnd) : Option ℤ :=
  match pe with
  | .valid y m => some (if m = 3 then y - 1 else y)
  | _ => years.max?

/-- `min(years, key=lambda y: abs(year - y))`: the first searched year at
minimal distance. -/
def closest_year (year : ℤ) (years : List ℤ) : Option ℤ :=
  years.foldl
    (fun best y =>
      match best with
      | none => some y
      | some b => if |year - y| < |year - b| then some y else some b)
    none

/-- Lines 1000-1011: years outside the searched list are kept only at
distance ≤ 1 and remapped to the closest searched year. -/
def adjust_year (years : List ℤ) (year : ℤ) : Option ℤ :=
  if year ∈ years then some year
  else
    match years with
    | [] => none
    | _ =>
      let year_diff := ((years.map (fun y => |year - y|)).min?).getD 999
      if 1 < year_diff then none else closest_year year years

/-- Lines 936-1029, one document: skip on a falsy id, resolve and adjust
the year, and keep the record when a download succeeded (`download_ok`
abstracts `download_document` returning a path). -/
def process_doc (years : List ℤ) (download_ok : EdinetDoc → Bool)
    (d : EdinetDoc) : Option (ℤ × Str) :=
  if d.docID = [] then none
  else
    match resolve_year years d.periodEnd with
    | none => none
    | some y0 =>
      match adjust_year years y0 with
      | none => none
      | some y => if download_ok d then some (y, d.docID) else none

/-- The result-building loop of `fetch_reports` (lines 934-1031):
`results[year] = {...}` over all documents in scan order. -/
def process_documents (years : List ℤ) (download_ok : EdinetDoc → Bool)
    (documents : List EdinetDoc) : List (ℤ × Str) :=
  documents.foldl
    (fun results d =>
      match process_doc years download_ok d with
      | some p => setKey results p.1 p.2
      | none => results)
    []

/-- `fetch_reports` (lines 868-1031): search, then build the per-year
result dict. -/
def fetch_reports (has_key : Bool) (code : Str) (years : List ℤ)
    (fetch : ℤ → List EdinetDoc) (download_ok : EdinetDoc → Bool) :
    List (ℤ × Str) :=
  if ¬ has_key then []
  else
    let documents := search_documents has_key code years fetch
    if documents = [] then []
    else process_documents years download_ok documents

end Edinet

/-! ## XBRL parser (`src/analysis/xbrl_parser.py`) -/

namespace XBRL

/-- One XML element as visited by `root.iter()`: its namespace-stripped tag
and the text `_extract_text_from_html_element_simple` yields for it (that
helper's HTML decoding/tag-stripping is abstracted into the field). -/
structure XmlElem where
  local_tag : Str
  text : Str
deriving DecidableEq

/-- One file of the bundle: its name and the parsed element list, `none`
when `ET.parse` raises (the file is skipped with a warning). -/
structure XmlFile where
  filename : Str
  parse : Option (List XmlElem)
deriving DecidableEq

/-- A downloaded bundle directory: whether it exists and is a directory,
the `*.xml` files and the `*.xbrl` files in scan order. -/
structure Bundle where
  exists_dir : Bool
  xmlFiles : List XmlFile
  xbrlFiles : List XmlFile
deriving DecidableEq

/-- Lines 328-331: linkbase filenames excluded from the instance scan. -/
def linkbase_suffixes : List Str :=
  [lit "_lab.xml", lit "_pre.xml", lit "_cal.xml", lit "_def.xml"]

/-- Lines 326-334: the XBRL instance documents — `*.xml` files whose names
contain no linkbase marker, followed by all `*.xbrl` files. -/
def instance_files (b : Bundle) : List XmlFile :=
  b.xmlFiles.filter
    (fun f => ¬ linkbase_suffixes.any (fun s => isSubstring s f.filename))
  ++ b.xbrlFiles

/-- Line 368: tags ending with or containing `TextBlock`. -/
def textblock_tag (tag : Str) : Bool :=
  (lit "TextBlock").isSuffixOf tag || isSubstring (lit "TextBlock") tag

/-- Line 371: the collection gate — a TextBlock tag whose extracted text
is truthy and longer than 50 characters. -/
def collect_gate (e : XmlElem) : Bool :=
  textblock_tag e.local_tag && (¬ e.text = []) && 50 < e.text.length

/-- Pass 1 (lines 340-380): walk every element of every parseable instance
document and assign `all_text_blocks[local_tag] = text` whenever the tag
is a TextBlock tag and the extracted text is non-empty with more than 50
characters. -/
def collect_text_blocks (files : List XmlFile) : List (Str × Str) :=
  files.foldl
    (fun acc f =>
      match f.parse with
      | none => acc
      | some elems =>
        elems.foldl
          (fun acc2 e =>
            if collect_gate e then setKey acc2 e.local_tag e.text else acc2)
          acc)
    []

/-- The elements visited by pass 1, in scan order (unparseable files are
skipped). -/
def scanned_elems (files : List XmlFile) : List XmlElem :=
  (files.filterMap XmlFile.parse).flatten

/-- The (tag, text) assignments pass 1 performs, in order. -/
def gatedPairs (files : List XmlFile) : List (Str × Str) :=
  (scanned_elems files).filterMap
    (fun e => if collect_gate e then some (e.local_tag, e.text) else none)

/-- One entry of `COMMON_SECTIONS`. -/
structure SectionDef where
  title : Str
  keywords : List Str
  xbrl_elements : List Str
deriving DecidableEq

/-- The class constant `COMMON_SECTIONS` (xbrl_parser.py lines 35-66). -/
def COMMON_SECTIONS : List (Char × SectionDef) :=
  [ ('A', { title := lit "事業の内容",
            keywords := [lit "事業の内容", lit "DescriptionOfBusiness"],
            xbrl_elements := [lit "DescriptionOfBusinessTextBlock"] }),
    ('B', { title := lit "経営方針、経営環境及び対処すべき課題等",
            keywords := [lit "経営方針", lit "経営環境", lit "対処すべき課題",
                         lit "BusinessPolicy"],
            xbrl_elements := [lit "BusinessPolicyTextBlock"] }),
    ('C', { title := lit "事業等のリスク",
            keywords := [lit "事業等のリスク", lit "BusinessRisks"],
            xbrl_elements := [lit "BusinessRisksTextBlock"] }),
    ('D', { title := lit "経営者による財政状態、経営成績及びキャッシュ・フローの状況の分析",
            keywords := [lit "経営者による", lit "財政状態", lit "経営成績",
                         lit "キャッシュ・フロー", lit "ManagementAnalysis"],
            xbrl_elements :=
              [lit "ManagementAnalysisOfFinancialPositionOperatingResultsAndCashFlowsTextBlock"] }),
    ('E', { title := lit "重要な契約等",
            keywords := [lit "重要な契約", lit "ImportantContracts"],
            xbrl_elements := [lit "ImportantContractsTextBlock"] }),
    ('F', { title := lit "設備投資等の概要",
            keywords := [lit "設備投資", lit "設備投資等の概要", lit "CapitalInvestment"],
            xbrl_elements := [lit "OverviewOfCapitalInvestmentTextBlock"] }) ]

/-- The two purely textual helpers of the parser that are abstracted in
this embedding: `normalize` stands for `_normalize_text` (regex-based
heading normalization, lines 583-606) and `ensure_title` for
`_ensure_starts_with_section_title` (lines 508-581).  Every theorem below
holds for an arbitrary `TextOps`. -/
structure TextOps where
  normalize : Str → Str
  ensure_title : Str → Str → Str

/-- First line index (if any) containing one of the patterns. -/
def find_line_idx (lines : List Str) (pats : List Str) : Option ℕ :=
  lines.findIdx? (fun l => pats.any (fun p => isSubstring p l))

/-- `_extract_subsection_from_text` (lines 608-658): normalize, split into
lines, slice from the first start-pattern line up to the first later
end-pattern line (or at most 1000 lines), and strip. -/
def extract_subsection (ops : TextOps) (text : Str)
    (start_patterns end_patterns : List Str) : Option Str :=
  let lines := splitNl (ops.normalize text)
  match find_line_idx lines start_patterns with
  | none => none
  | some start_idx =>
    let end_idx :=
      match find_line_idx (lines.drop (start_idx + 1)) end_patterns with
      | some j => start_idx + 1 + j
      | none => min (start_idx + 1000) lines.length
    let extracted := pyStrip (joinNl ((lines.drop start_idx).take (end_idx - start_idx)))
    if extracted = [] then none else some extracted

/-- The key of the combined MD&A block (line 401). -/
def mda_tag : Str :=
  lit "ManagementAnalysisOfFinancialPositionOperatingResultsAndCashFlowsTextBlock"

/-- Method 1 (lines 387-396): look each configured element name up in the
collected blocks by substring or suffix; first hit wins. -/
def method1 (blocks : List (Str × Str)) (sdef : SectionDef) : Option Str :=
  sdef.xbrl_elements.findSome?
    (fun el =>
      blocks.findSome?
        (fun p => if isSubstring el p.1 || el.isSuffixOf p.1 then some p.2 else none))

def title_patternsB : List Str :=
  [ lit "経営方針、経営環境及び対処すべき課題等",
    lit "【経営方針、経営環境及び対処すべき課題等】",
    lit "経営方針、経営環境及び対処すべき課題等】" ]

def startsB : List Str :=
  [lit "（３）経営方針", lit "（3）経営方針", lit "（３） 経営方針", lit "（3） 経営方針"]

def endsB : List Str :=
  [lit "（５）研究開発", lit "（5）研究開発", lit "（５） 研究開発", lit "（5） 研究開発"]

def startsF : List Str :=
  [ lit "（６）設備", lit "（6）設備", lit "（６） 設備", lit "（6） 設備",
    lit "（７）設備", lit "（7）設備", lit "（７） 設備", lit "（7） 設備" ]

def endsF : List Str :=
  [lit "（８）将来予想", lit "（8）将来予想", lit "（８） 将来予想", lit "（8） 将来予想"]

def titleB : Str := lit "経営方針、経営環境及び対処すべき課題等"

/-- Method 2 for section B (lines 404-457): slice the combined MD&A block
and prepend the heading stretch (or the bare title). -/
def method2_B (ops : TextOps) (blocks : List (Str × Str)) : Option Str :=
  match lookupKey mda_tag blocks with
  | none => none
  | some mda_block =>
    let normalized_mda := ops.normalize mda_block
    let has_title := title_patternsB.any (fun p => isSubstring p normalized_mda)
    match extract_subsection ops mda_block startsB endsB with
    | none => none
    | some extracted =>
      if has_title then
        let lines := splitNl normalized_mda
        match find_line_idx lines title_patternsB with
        | some title_line_idx =>
          match
            lines.findIdx?
              (fun l => isSubstring (lit "（３）経営方針") l
                        || isSubstring (lit "（3）経営方針") l) with
          | some policy_line_idx =>
            if title_line_idx < policy_line_idx then
              some (pyStrip (joinNl ((lines.drop title_line_idx).take
                      (policy_line_idx - title_line_idx))) ++ ' ' :: extracted)
            else some (titleB ++ ' ' :: extracted)
          | none => some (titleB ++ ' ' :: extracted)
        | none => some (titleB ++ ' ' :: extracted)
      else some (titleB ++ ' ' :: extracted)

/-- Method 2 for section F (lines 459-467). -/
def method2_F (ops : TextOps) (blocks : List (Str × Str)) : Option Str :=
  match lookupKey mda_tag blocks with
  | none => none
  | some mda_block => extract_subsection ops mda_block startsF endsF

/-- Method 4 (lines 469-495): fall back to scanning every block for the
configured element names or the section title (plain or bracketed) within
the first 500 characters. -/
def method4 (blocks : List (Str × Str)) (sdef : SectionDef) : Option Str :=
  blocks.findSome?
    (fun p =>
      let element_found :=
        sdef.xbrl_elements.any (fun el => isSubstring el p.1 || el.isSuffixOf p.1)
      let title_patterns :=
        [ sdef.title, '【' :: sdef.title ++ ['】'], sdef.title ++ ['】'],
          '【' :: sdef.title ]
      if element_found || title_patterns.any (fun pat => isSubstring pat (p.2.take 500))
      then some p.2 else none)

/-- The per-section cascade of lines 384-495 (method 1, then method 2 for
B/F, then method 4); collected texts are non-empty, so `none` coincides
with Python falsiness. -/
def resolve_section (ops : TextOps) (blocks : List (Str × Str)) (sid : Char)
    (sdef : SectionDef) : Option Str :=
  match method1 blocks sdef with
  | some t => some t
  | none =>
    match
      (if sid = 'B' then method2_B ops blocks
       else if sid = 'F' then method2_F ops blocks
       else none) with
    | some t => some t
    | none => method4 blocks sdef

/-- Lines 497-504: a resolved section is re-anchored on its title, an
unresolved one becomes the empty string. -/
def section_value (ops : TextOps) (blocks : List (Str × Str)) (sid : Char)
    (sdef : SectionDef) : Str :=
  match resolve_section ops blocks sid sdef with
  | some t => ops.ensure_title t sdef.title
  | none => []

/-- `extract_sections_by_type` (lines 299-506): empty dict when the bundle
directory is missing or holds no instance document, otherwise one entry
per configured section. -/
def extract_sections_by_type (ops : TextOps) (b : Bundle) : List (Char × Str) :=
  if ¬ b.exists_dir then []
  else
    let xml_files := instance_files b
    if xml_files = [] then []
    else
      let blocks := collect_text_blocks xml_files
      COMMON_SECTIONS.map (fun p => (p.1, section_value ops blocks p.1 p.2))

end XBRL

/-! ## Concrete inputs used by counterexamples and witnesses -/

namespace Ex

/-- An annual report of Toyota (security code 7203) listed for fiscal year
2023 (period end December 2023). -/
def docA : Edinet.EdinetDoc :=
  { docID := lit "S100A", ordinanceCode := lit "010", docTypeCode := lit "030000",
    secCode := some (lit "72030"), docDescription := [],
    periodEnd := .valid 2023 12 }

/-- The same filer's report for fiscal year 2022. -/
def docB : Edinet.EdinetDoc :=
  { docID := lit "S100B", ordinanceCode := lit "010", docTypeCode := lit "030000",
    secCode := some (lit "72030"), docDescription := [],
    periodEnd := .valid 2022 12 }

/-- A candidate whose security code 7201 differs from the searched 7203 in
the last digit. -/
def docC : Edinet.EdinetDoc :=
  { docID := lit "S100C", ordinanceCode := lit "010", docTypeCode := lit "030000",
    secCode := some (lit "7201"), docDescription := [],
    periodEnd := .valid 2023 12 }

/-- A per-year remote index with one accepted match in 2023 and one in
2022. -/
def fetchAB : ℤ → List Edinet.EdinetDoc :=
  fun y => if y = 2023 then [docA] else if y = 2022 then [docB] else []

/-- A trivial instantiation of the abstracted text helpers. -/
def opsId : XBRL.TextOps := { normalize := id, ensure_title := fun t _ => t }

/-- An existing bundle with a single well-formed instance document. -/
def bundleOne : XBRL.Bundle :=
  { exists_dir := true,
    xmlFiles := [{ filename := lit "jpcrp.xml",
                   parse := some [⟨lit "DescriptionOfBusinessTextBlock",
                                   List.replicate 60 'x'⟩] }],
    xbrlFiles := [] }

end Ex

/-! ## Library lemmas about the dict model -/

section AssocLemmas

variable {κ : Type} {α : Type} [DecidableEq κ]

theorem lookupKey_setKey (m : List (κ × α)) (k k' : κ) (v : α) :
    lookupKey k (setKey m k' v) = if k' = k then some v else lookupKey k m := by
  induction m with
  | nil => simp [setKey, lookupKey]
  | cons p rest ih =>
    obtain ⟨a, b⟩ := p
    by_cases hak : a = k'
    · subst hak
      by_cases hk : a = k
      · simp [setKey, lookupKey, hk]
      · simp [setKey, lookupKey, hk]
    · simp only [setKey, if_neg hak, lookupKey]
      by_cases hk : a = k
      · subst hk
        have hne : ¬ k' = a := fun h => hak h.symm
        simp [lookupKey, hne]
      · simp [lookupKey, hk, ih]

theorem lookupKey_upserts (l : List (κ × α)) (init : List (κ × α)) (k : κ) :
    lookupKey k (upserts init l)
      = match lastWith (fun p => p.1 = k) l with
        | some p => some p.2
        | none => lookupKey k init := by
  induction l generalizing init with
  | nil => simp [upserts, lastWith]
  | cons p rest ih =>
    have step : upserts init (p :: rest) = upserts (setKey init p.1 p.2) rest := rfl
    rw [step, ih]
    cases hrest : lastWith (fun q => q.1 = k) rest with
    | some q => simp [lastWith, hrest]
    | none =>
      simp only [lastWith, hrest, lookupKey_setKey]
      by_cases hp : p.1 = k
      · simp [hp]
      · simp [hp]

/-- `lastWith P l` is `find?` on the reversed list: the last match of `P`. -/
theorem lastWith_eq_find_reverse (P : α → Bool) (l : List α) :
    lastWith P l = l.reverse.find? P := by
  induction l with
  | nil => rfl
  | cons a rest ih =>
    rw [List.reverse_cons, List.find?_append, ← ih]
    cases h : lastWith P rest with
    | some b => simp [lastWith, h]
    | none => by_cases hPa : P a <;> simp [lastWith, h, hPa, List.find?]

theorem keys_setKey (m : List (κ × α)) (k : κ) (v : α) :
    (setKey m k v).map Prod.fst
      = if k ∈ m.map Prod.fst then m.map Prod.fst else m.map Prod.fst ++ [k] := by
  induction m with
  | nil => simp [setKey]
  | cons p rest ih =>
    obtain ⟨a, b⟩ := p
    by_cases hak : a = k
    · subst hak
      simp [setKey]
    · have hka : ¬ k = a := fun h => hak h.symm
      simp only [setKey, if_neg hak, List.map_cons]
      by_cases hmem : k ∈ rest.map Prod.fst
      · simp [hmem, ih, hka]
      · simp [hmem, ih, hka]

theorem keys_setKey_nodup (m : List (κ × α)) (k : κ) (v : α)
    (h : (m.map Prod.fst).Nodup) : ((setKey m k v).map Prod.fst).Nodup := by
  rw [keys_setKey]
  by_cases hmem : k ∈ m.map Prod.fst
  · rw [if_pos hmem]
    exact h
  · rw [if_neg hmem]
    exact List.Nodup.append h (List.nodup_singleton k)
      (List.disjoint_singleton.mpr hmem)

theorem keys_upserts_nodup (l : List (κ × α)) (init : List (κ × α))
    (h : (init.map Prod.fst).Nodup) : ((upserts init l).map Prod.fst).Nodup := by
  induction l generalizing init with
  | nil => exact h
  | cons p rest ih => exact ih (setKey init p.1 p.2) (keys_setKey_nodup init p.1 p.2 h)

/-- A fold that applies an optional key/value extraction at each element and
assigns the extracted pairs into a dict equals `upserts` over `filterMap`. -/
theorem foldl_optional_setKey {σ : Type} (f : σ → Option (κ × α)) (l : List σ)
    (init : List (κ × α)) :
    l.foldl (fun m d => match f d with | some p => setKey m p.1 p.2 | none => m) init
      = upserts init (l.filterMap f) := by
  induction l generalizing init with
  | nil => rfl
  | cons d rest ih =>
    simp only [List.foldl_cons, List.filterMap_cons]
    cases hfd : f d with
    | none => simpa [hfd] using ih init
    | some p => simpa [hfd] using ih (setKey init p.1 p.2)

end AssocLemmas

/-! ## Evaluation lemmas for `calculate_growth_rate` -/

theorem growth_rate_eval_two (values : List (Option ℚ)) (l o : ℚ)
    (h : Calc.validValues values = [l, o]) :
    Calc.calculate_growth_rate values
      = (Calc.calculate_yoy_growth (some l) (some o)).map (fun q => (q : ℝ)) := by
  have hge : 2 ≤ values.length := by
    calc 2 = (Calc.validValues values).length := by rw [h]; rfl
    _ ≤ values.length := List.length_filterMap_le id values
  unfold Calc.calculate_growth_rate
  rw [if_neg (not_lt.mpr hge)]
  simp [h, List.getLastI]

theorem growth_rate_eval_many (values : List (Option ℚ)) (n : ℕ)
    (hn : (Calc.validValues values).length = n) (h3 : 3 ≤ n) :
    Calc.calculate_growth_rate values
      = Calc.calculate_cagr (some (Calc.validValues values).headI)
          (some (Calc.validValues values).getLastI) ((n : ℤ) - 1) := by
  have hge : 2 ≤ values.length := by
    calc 2 ≤ n := by omega
    _ = (Calc.validValues values).length := hn.symm
    _ ≤ values.length := List.length_filterMap_le id values
  have hne2 : ¬ (Calc.validValues values).length = 2 := by omega
  have hnlt : ¬ (Calc.validValues values).length < 2 := by omega
  unfold Calc.calculate_growth_rate
  rw [if_neg (not_lt.mpr hge)]
  simp only [hn]
  rw [if_neg (by omega : ¬ n < 2), if_neg (by omega : ¬ n = 2)]

/-! ## Claim C4 -/

/-- C4: for every metric value list with exactly two non-null values the
growth figure equals `(newest / oldest - 1) * 100`, and it is null iff
either of the two values is ≤ 0; in particular values `10` and `8`
(ROE percentages) yield `25`. -/
theorem C4_growth_exactly_two (values : List (Option ℚ)) (l o : ℚ)
    (h : Calc.validValues values = [l, o]) :
    (Calc.calculate_growth_rate values = none ↔ l ≤ 0 ∨ o ≤ 0)
    ∧ (0 < l → 0 < o →
        Calc.calculate_growth_rate values = some (((l / o - 1) * 100 : ℚ) : ℝ)) := by
  rw [growth_rate_eval_two values l o h]
  unfold Calc.calculate_yoy_growth
  constructor
  · by_cases ho : o ≤ 0
    · simp [ho]
    · by_cases hl : l ≤ 0 <;> simp [ho, hl]
  · intro hl ho
    simp [not_le.mpr hl, not_le.mpr ho]

/-- Witness for C4 at the spec's example: ROE percentages 10 (newest) and
8 (oldest) give a growth figure of exactly 25. -/
theorem C4_growth_exactly_two_witness :
    Calc.validValues [some 10, some 8] = [(10 : ℚ), 8]
    ∧ Calc.calculate_growth_rate [some 10, some 8] = some ((25 : ℚ) : ℝ) := by
  have h := (C4_growth_exactly_two [some 10, some 8] 10 8 (by decide)).2
    (by decide) (by decide)
  refine ⟨by decide, ?_⟩
  rw [h]
  norm_num

/-! ## Claim C5 -/

/-- C5: for every metric value list with `n ≥ 3` non-null values the growth
figure equals `((newest / oldest) ^ (1 / (n - 1)) - 1) * 100` over `n - 1`
periods, and it is null iff the newest or the oldest non-null value is
≤ 0, regardless of the intermediate values. -/
theorem C5_growth_three_or_more (values : List (Option ℚ)) (l o : ℚ) (n : ℕ)
    (hl : (Calc.validValues values).headI = l)
    (ho : (Calc.validValues values).getLastI = o)
    (hn : (Calc.validValues values).length = n) (h3 : 3 ≤ n) :
    (Calc.calculate_growth_rate values = none ↔ l ≤ 0 ∨ o ≤ 0)
    ∧ (0 < l → 0 < o →
        Calc.calculate_growth_rate values
          = some ((((l : ℝ) / (o : ℝ)) ^ ((1 : ℝ) / ((n : ℝ) - 1)) - 1) * 100)) := by
  rw [growth_rate_eval_many values n hn h3, hl, ho]
  unfold Calc.calculate_cagr
  have hy : ¬ ((n : ℤ) - 1 ≤ 0) := by omega
  constructor
  · by_cases hoo : o ≤ 0
    · simp [hoo]
    · by_cases hll : l ≤ 0 <;> simp [hoo, hll, hy]
  · intro hlp hop
    have hcast : (((n : ℤ) - 1 : ℤ) : ℝ) = (n : ℝ) - 1 := by push_cast; ring
    simp [not_le.mpr hlp, not_le.mpr hop, hy, hcast]

/-- Witness for C5 at the spec's example: ROE values 12, 10, 8 over
three years give `((12/8) ^ (1/2) - 1) * 100` (≈ 9.54). -/
theorem C5_growth_three_or_more_witness :
    (Calc.validValues [some 12, some 10, some 8]).length = 3
    ∧ Calc.calculate_growth_rate [some 12, some 10, some 8]
        = some ((((12 : ℝ) / 8) ^ ((1 : ℝ) / ((3 : ℝ) - 1)) - 1) * 100) := by
  have h := (C5_growth_three_or_more [some 12, some 10, some 8] 12 8 3
    (by decide) (by decide) (by decide) (by decide)).2 (by decide) (by decide)
  exact ⟨by decide, by rw [h]; norm_num⟩

/-! ## Claim C3 (corrected) -/

/-- C3 counterexample: the code guards ROE only by `eq != 0`, so a negative
equity of -1000 with net profit 100 yields a computed ROE of -10, not
null — refuting "null whenever equity is ... negative". -/
theorem C3_roe_negative_equity_counterexample :
    (Calc.yearMetric []
      { fy_end := [], sales := .null, op := .null, np := .num 100,
        eq := .num (-1000), cfo := .null, cfi := .null, eps := .null,
        bps := .null, payoutRatioAnn := .null }).roe = some (-10) := by
  show some ((100 : ℚ) / (-1000) * 100) = some (-10)
  norm_num

/-- C3 as amended: per-year ROE equals `netProfit / equity * 100` whenever
both parse and equity is non-zero (negative equity included), and is null
exactly when net profit or equity is absent/non-numeric or equity is
zero. -/
theorem C3_roe_null_iff (prices : List (Str × ℚ)) (d : Calc.YearData) :
    ((Calc.yearMetric prices d).roe = none
      ↔ Calc.to_float d.np = none ∨ Calc.to_float d.eq = none
        ∨ Calc.to_float d.eq = some 0)
    ∧ (∀ n e : ℚ, Calc.to_float d.np = some n → Calc.to_float d.eq = some e →
        ¬ e = 0 → (Calc.yearMetric prices d).roe = some (n / e * 100)) := by
  constructor
  · show (match Calc.to_float d.np, Calc.to_float d.eq with
          | some n, some e => if ¬ e = 0 then some (n / e * 100) else none
          | _, _ => none) = none ↔ _
    cases hnp : Calc.to_float d.np with
    | none => simp
    | some n =>
      cases heq : Calc.to_float d.eq with
      | none => simp
      | some e =>
        by_cases he : e = 0
        · simp [he]
        · simp [he]
  · intro n e hnp heq he
    show (match Calc.to_float d.np, Calc.to_float d.eq with
          | some n, some e => if ¬ e = 0 then some (n / e * 100) else none
          | _, _ => none) = some (n / e * 100)
    rw [hnp, heq]
    simp [he]

/-- Witness for the amended C3: net profit 200 over equity 50 gives an ROE
of 400. -/
theorem C3_roe_null_iff_witness :
    (Calc.yearMetric []
      { fy_end := [], sales := .null, op := .null, np := .num 200,
        eq := .num 50, cfo := .null, cfi := .null, eps := .null,
        bps := .null, payoutRatioAnn := .null }).roe = some 400 := by
  have h := (C3_roe_null_iff []
    { fy_end := [], sales := .null, op := .null, np := .num 200,
      eq := .num 50, cfo := .null, cfi := .null, eps := .null,
      bps := .null, payoutRatioAnn := .null }).2 200 50 rfl rfl (by norm_num)
  rw [h]
  norm_num

/-! ## Claim C8 (corrected) -/

/-- C8 counterexample: the code never checks that the looked-up price is
positive — a price of 0 with EPS 5 yields P/E `some 0`, not null,
refuting "null whenever the price is ... zero". -/
theorem C8_per_zero_price_counterexample :
    (Calc.yearMetric [(['d'], 0)]
      { fy_end := ['d'], sales := .null, op := .null, np := .null,
        eq := .null, cfo := .null, cfi := .null, eps := .num 5,
        bps := .null, payoutRatioAnn := .null }).per = some 0 := by
  show (match Calc.lookup_price [(['d'], 0)] ['d'], some (5 : ℚ) with
        | some p, some e => if 0 < e then some (p / e) else none
        | _, _ => none) = some 0
  have hp : Calc.lookup_price [(['d'], 0)] ['d'] = some 0 := by
    unfold Calc.lookup_price
    simp [lookupKey]
  rw [hp]
  norm_num

/-- C8 as amended: P/E (resp. P/B) is non-null iff a price was found
(whatever its sign) and EPS (resp. BPS) is strictly positive, and then
equals price divided by the denominator. -/
theorem C8_per_pbr_null_iff (prices : List (Str × ℚ)) (d : Calc.YearData) :
    ((Calc.yearMetric prices d).per = none
      ↔ Calc.lookup_price prices d.fy_end = none ∨ Calc.to_float d.eps = none
        ∨ ∃ e, Calc.to_float d.eps = some e ∧ e ≤ 0)
    ∧ (∀ p e : ℚ, Calc.lookup_price prices d.fy_end = some p →
        Calc.to_float d.eps = some e → 0 < e →
        (Calc.yearMetric prices d).per = some (p / e))
    ∧ ((Calc.yearMetric prices d).pbr = none
      ↔ Calc.lookup_price prices d.fy_end = none ∨ Calc.to_float d.bps = none
        ∨ ∃ b, Calc.to_float d.bps = some b ∧ b ≤ 0)
    ∧ (∀ p b : ℚ, Calc.lookup_price prices d.fy_end = some p →
        Calc.to_float d.bps = some b → 0 < b →
        (Calc.yearMetric prices d).pbr = some (p / b)) := by
  refine ⟨?_, ?_, ?_, ?_⟩
  · show (match Calc.lookup_price prices d.fy_end, Calc.to_float d.eps with
          | some p, some e => if 0 < e then some (p / e) else none
          | _, _ => none) = none ↔ _
    cases hp : Calc.lookup_price prices d.fy_end with
    | none => simp
    | some p =>
      cases he : Calc.to_float d.eps with
      | none => simp
      | some e =>
        by_cases hpos : 0 < e
        · simp [hpos, not_le.mpr hpos]
        · simp [hpos, not_lt.mp hpos]
  · intro p e hp he hpos
    show (match Calc.lookup_price prices d.fy_end, Calc.to_float d.eps with
          | some p, some e => if 0 < e then some (p / e) else none
          | _, _ => none) = some (p / e)
    rw [hp, he]
    simp [hpos]
  · show (match Calc.lookup_price prices d.fy_end, Calc.to_float d.bps with
          | some p, some b => if 0 < b then some (p / b) else none
          | _, _ => none) = none ↔ _
    cases hp : Calc.lookup_price prices d.fy_end with
    | none => simp
    | some p =>
      cases hb : Calc.to_float d.bps with
      | none => simp
      | some b =>
        by_cases hpos : 0 < b
        · simp [hpos, not_le.mpr hpos]
        · simp [hpos, not_lt.mp hpos]
  · intro p b hp hb hpos
    show (match Calc.lookup_price prices d.fy_end, Calc.to_float d.bps with
          | some p, some b => if 0 < b then some (p / b) else none
          | _, _ => none) = some (p / b)
    rw [hp, hb]
    simp [hpos]

/-- Witness for the amended C8: price 30, EPS 6 and BPS 10 give P/E 5 and
P/B 3. -/
theorem C8_per_pbr_null_iff_witness :
    (Calc.yearMetric [(['d'], 30)]
      { fy_end := ['d'], sales := .null, op := .null, np := .null,
        eq := .null, cfo := .null, cfi := .null, eps := .num 6,
        bps := .num 10, payoutRatioAnn := .null }).per = some 5
    ∧ (Calc.yearMetric [(['d'], 30)]
      { fy_end := ['d'], sales := .null, op := .null, np := .null,
        eq := .null, cfo := .null, cfi := .null, eps := .num 6,
        bps := .num 10, payoutRatioAnn := .null }).pbr = some 3 := by
  have hlp : Calc.lookup_price [(['d'], 30)] ['d'] = some 30 := by
    unfold Calc.lookup_price
    simp [lookupKey]
  have h := C8_per_pbr_null_iff [(['d'], 30)]
    { fy_end := ['d'], sales := .null, op := .null, np := .null,
      eq := .null, cfo := .null, cfi := .null, eps := .num 6,
      bps := .num 10, payoutRatioAnn := .null }
  constructor
  · rw [h.2.1 30 6 hlp rfl (by norm_num)]
    norm_num
  · rw [h.2.2.2 30 10 hlp rfl (by norm_num)]
    norm_num

/-! ## Claim C10 -/

/-- C10: the per-year payout ratio is the parsed raw value rescaled by 100
(null exactly when the raw value is absent or non-numeric), and the payout
growth figure is `calculate_growth_rate` over precisely these rescaled
values (when at least two remain). -/
theorem C10_payout_rescaled (prices : List (Str × ℚ)) (d : Calc.YearData)
    (ds : List Calc.YearData) :
    ((Calc.yearMetric prices d).payout_ratio
        = (Calc.to_float d.payoutRatioAnn).map (fun r => r * 100))
    ∧ ((Calc.yearMetric prices d).payout_ratio = none
        ↔ Calc.to_float d.payoutRatioAnn = none)
    ∧ (Calc.payout_growth (ds.map (Calc.yearMetric prices))
        = if 2 ≤ (ds.filterMap
              (fun d0 => (Calc.to_float d0.payoutRatioAnn).map (fun r => r * 100))).length
          then Calc.calculate_growth_rate
            ((ds.filterMap
              (fun d0 => (Calc.to_float d0.payoutRatioAnn).map (fun r => r * 100))).map some)
          else none) := by
  refine ⟨rfl, ?_, ?_⟩
  · show (Calc.to_float d.payoutRatioAnn).map (fun r => r * 100) = none
        ↔ Calc.to_float d.payoutRatioAnn = none
    cases h : Calc.to_float d.payoutRatioAnn <;> simp
  · show Calc.payout_growth (ds.map (Calc.yearMetric prices)) = _
    unfold Calc.payout_growth
    rw [List.filterMap_map]
    rfl

/-! ## Claim C9 -/

/-- C9: in one fetch, `results[year] = record` runs for every processed
document in scan order, so the record kept for a year is the one of the
last document resolving to it (later documents silently overwrite earlier
ones), and the result holds exactly one record per year. -/
theorem C9_fetch_last_document_wins (years : List ℤ)
    (download_ok : Edinet.EdinetDoc → Bool) (documents : List Edinet.EdinetDoc)
    (y : ℤ) :
    lookupKey y (Edinet.process_documents years download_ok documents)
      = (lastWith (fun p => p.1 = y)
          (documents.filterMap (Edinet.process_doc years download_ok))).map Prod.snd
    ∧ ((Edinet.process_documents years download_ok documents).map Prod.fst).Nodup := by
  have gen : ∀ (l : List Edinet.EdinetDoc) (init : List (ℤ × Str)),
      l.foldl
        (fun results d =>
          match Edinet.process_doc years download_ok d with
          | some p => setKey results p.1 p.2
          | none => results)
        init
      = upserts init (l.filterMap (Edinet.process_doc years download_ok)) := by
    intro l
    induction l with
    | nil => intro init; rfl
    | cons d rest ih =>
      intro init
      simp only [List.foldl_cons, List.filterMap_cons]
      cases hfd : Edinet.process_doc years download_ok d with
      | none => simpa [hfd] using ih init
      | some p => simpa [hfd] using ih (setKey init p.1 p.2)
  have heq : Edinet.process_documents years download_ok documents
      = upserts [] (documents.filterMap (Edinet.process_doc years download_ok)) := by
    unfold Edinet.process_documents
    exact gen documents []
  constructor
  · rw [heq, lookupKey_upserts]
    cases lastWith (fun p => p.1 = y)
        (documents.filterMap (Edinet.process_doc years download_ok)) with
    | none => rfl
    | some p => rfl
  · rw [heq]
    exact keys_upserts_nodup _ [] (by simp)

/-! ## Claim C6 (corrected) -/

theorem zfill_of_le (n : ℕ) (s : Str) (h : n ≤ s.length) : zfill n s = s := by
  unfold zfill
  rw [Nat.sub_eq_zero_of_le h]
  rfl

/-- C6 counterexample: searching code 7203, the candidate with security
code 7201 (same leading three digits) is accepted by the filter — the
seventh `is_match` clause compares the leading 4 characters of both codes
zero-padded to five digits, `"07203"[:4] = "0720" = "07201"[:4]` — while
it satisfies none of the three rules the claim states. -/
theorem C6_counterexample :
    Edinet.filter_year (lit "7203") 2023 [Ex.docC] = [Ex.docC]
    ∧ Edinet.specMatch (lit "7203") (pyStrip (lit "7201")) = false := by decide

/-- C6 as amended: the three stated rules are sufficient for acceptance
but not necessary — every accepted candidate satisfies the code's wider
`is_match` disjunction (which also accepts any security code sharing the
leading four characters after zero-padding both codes to five digits, or
any longer code starting with the input's first four digits). -/
theorem C6_match_rules (code sec : Str) (year : ℤ)
    (docs : List Edinet.EdinetDoc) (d : Edinet.EdinetDoc) :
    (Edinet.specMatch code sec = true → Edinet.is_match code sec = true)
    ∧ (d ∈ Edinet.filter_year code year docs →
        ∃ sc, d.secCode = some sc ∧ Edinet.is_match code (pyStrip sc) = true) := by
  constructor
  · intro h
    unfold Edinet.specMatch at h
    unfold Edinet.is_match
    simp only [Bool.or_eq_true, Bool.and_eq_true, decide_eq_true_eq] at h ⊢
    rcases h with (⟨h4, hsec⟩ | ⟨h5, hsec⟩) | ⟨⟨h4, h5⟩, htake⟩
    · simp [hsec]
    · by_cases hlen : code.length < 5
      · simp [hsec, hlen]
      · simp [hsec, hlen, zfill_of_le 5 code (not_lt.mp hlen)]
    · have hc4 : code.take 4 = code := by
        rw [← h4, List.take_length]
      have hif : (if 4 ≤ code.length then code.take 4 else code) = code := by
        rw [if_pos (by omega : 4 ≤ code.length), hc4]
      refine Or.inr ⟨h5, ?_⟩
      rw [hif, htake]
  · intro h
    have hacc : Edinet.accept_doc code year d = true :=
      (List.mem_filter.mp h).2
    unfold Edinet.accept_doc at hacc
    cases hsc : d.secCode with
    | none =>
      rw [hsc] at hacc
      simp at hacc
    | some sc =>
      simp only [hsc] at hacc
      refine ⟨sc, rfl, ?_⟩
      cases hdy : Edinet.doc_year_in_match year d with
      | none => simpa only [hdy] using hacc
      | some dy =>
        simp only [hdy] at hacc
        by_cases hne : ¬ dy = year
        · rw [if_pos hne] at hacc
          cases hacc
        · rwa [if_neg hne] at hacc

/-- Witness for the amended C6: the exact 5-digit form 72030 of 7203 is
accepted, and the accepted candidate of the counterexample run indeed
satisfies `is_match`. -/
theorem C6_match_rules_witness :
    Edinet.specMatch (lit "7203") (lit "07203") = true
    ∧ Edinet.is_match (lit "7203") (lit "07203") = true
    ∧ Edinet.is_match (lit "7203") (pyStrip (lit "7201")) = true := by
  have h1 := (C6_match_rules (lit "7203") (lit "07203") 2023 [] Ex.docC).1 (by decide)
  have h2 := (C6_match_rules (lit "7203") (pyStrip (lit "7201")) 2023 [Ex.docC] Ex.docC).2
    (by decide)
  refine ⟨by decide, h1, ?_⟩
  obtain ⟨sc, hsc, hm⟩ := h2
  have : sc = lit "7201" := by
    have : some sc = some (lit "7201") := by rw [← hsc]; decide
    exact Option.some.inj this
  rwa [this] at hm

/-! ## Claim C1 (corrected) -/

/-- C1 counterexample: with accepted matches available for both 2023 and
2022 (2023 listed first), the returned document list contains the match of
2022 as well — the year loop has no `break`, so the scan does not stop at
the first matching year and the result is not confined to it. -/
theorem C1_counterexample :
    ¬ Edinet.filter_year (lit "7203") 2023 (Ex.fetchAB 2023) = []
    ∧ Edinet.search_documents true (lit "7203") [2023, 2022] Ex.fetchAB
        = [Ex.docA, Ex.docB]
    ∧ ¬ Ex.docB ∈ Edinet.filter_year (lit "7203") 2023 (Ex.fetchAB 2023) := by
  decide

/-- C1 as amended: the year loop scans every candidate year and
concatenates all years' accepted matches in list order; it never commits
to the first matching year. -/
theorem C1_search_concatenates_all_years (code : Str) (years : List ℤ)
    (fetch : ℤ → List Edinet.EdinetDoc) :
    Edinet.search_documents true code years fetch
      = (years.map (fun y => Edinet.filter_year code y (fetch y))).flatten := by
  have gen : ∀ (ys : List ℤ) (init : List Edinet.EdinetDoc),
      ys.foldl
        (fun all_documents year =>
          let filtered := Edinet.filter_year code year (fetch year)
          if ¬ filtered = [] then all_documents ++ filtered else all_documents)
        init
      = init ++ (ys.map (fun y => Edinet.filter_year code y (fetch y))).flatten := by
    intro ys
    induction ys with
    | nil => intro init; simp
    | cons y rest ih =>
      intro init
      simp only [List.foldl_cons, List.map_cons, List.flatten_cons]
      have hstep :
          (let filtered := Edinet.filter_year code y (fetch y)
           if ¬ filtered = [] then init ++ filtered else init)
          = init ++ Edinet.filter_year code y (fetch y) := by
        by_cases hf : Edinet.filter_year code y (fetch y) = []
        · simp [hf]
        · simp [hf]
      rw [hstep, ih, List.append_assoc]
  unfold Edinet.search_documents
  simp only [not_true, if_false, Bool.not_eq_true]
  rw [gen years []]
  rfl

/-! ## Claim C2 (corrected) -/

theorem lookupKey_map_value {κ β α : Type} [DecidableEq κ]
    (g : κ → β → α) (l : List (κ × β)) (k : κ) (v : β)
    (h : lookupKey k l = some v) :
    lookupKey k (l.map (fun p => (p.1, g p.1 p.2))) = some (g k v) := by
  induction l with
  | nil => cases h
  | cons p rest ih =>
    obtain ⟨a, b⟩ := p
    simp only [List.map_cons, lookupKey] at h ⊢
    by_cases hk : a = k
    · subst hk
      rw [if_pos rfl] at h ⊢
      cases h
      rfl
    · rw [if_neg hk] at h ⊢
      exact ih h

/-- C2 counterexample: for a nonexistent bundle directory — and likewise
for an existing one with no XML instance document — the extractor returns
the empty map, carrying none of the six canonical keys. -/
theorem C2_counterexample :
    XBRL.extract_sections_by_type Ex.opsId
      { exists_dir := false, xmlFiles := [], xbrlFiles := [] } = []
    ∧ XBRL.extract_sections_by_type Ex.opsId
      { exists_dir := true, xmlFiles := [], xbrlFiles := [] } = [] :=
  ⟨rfl, rfl⟩

/-- C2 as amended: when the bundle directory exists and holds at least one
instance document, the extractor returns exactly the six canonical keys
A-F in order, each mapped to its `section_value` (the empty string when
the cascade resolves nothing); a missing or XML-free bundle yields the
empty map instead. -/
theorem C2_section_keys (ops : XBRL.TextOps) (b : XBRL.Bundle) :
    (XBRL.extract_sections_by_type ops b).map Prod.fst
      = (if b.exists_dir = true ∧ ¬ XBRL.instance_files b = []
         then ['A', 'B', 'C', 'D', 'E', 'F'] else [])
    ∧ (∀ sid sdef, lookupKey sid XBRL.COMMON_SECTIONS = some sdef →
        b.exists_dir = true → ¬ XBRL.instance_files b = [] →
        lookupKey sid (XBRL.extract_sections_by_type ops b)
          = some (XBRL.section_value ops
              (XBRL.collect_text_blocks (XBRL.instance_files b)) sid sdef)) := by
  constructor
  · unfold XBRL.extract_sections_by_type
    by_cases hd : b.exists_dir = true
    · by_cases hf : XBRL.instance_files b = []
      · simp [hd, hf]
      · simp only [hd, hf]
        simp [List.map_map]
        rfl
    · have hd' : b.exists_dir = false := by
        cases hb : b.exists_dir
        · rfl
        · exact absurd hb hd
      simp [hd', hd]
  · intro sid sdef hlk hd hf
    unfold XBRL.extract_sections_by_type
    rw [if_neg (by simp [hd]), if_neg hf]
    exact lookupKey_map_value
      (XBRL.section_value ops (XBRL.collect_text_blocks (XBRL.instance_files b)))
      XBRL.COMMON_SECTIONS sid sdef hlk

/-- Witness for the amended C2: a one-document bundle yields the six keys
in order, and key A carries its computed section value. -/
theorem C2_section_keys_witness :
    ((XBRL.extract_sections_by_type Ex.opsId Ex.bundleOne).map Prod.fst
      = ['A', 'B', 'C', 'D', 'E', 'F'])
    ∧ lookupKey 'A' (XBRL.extract_sections_by_type Ex.opsId Ex.bundleOne)
        = some (XBRL.section_value Ex.opsId
            (XBRL.collect_text_blocks (XBRL.instance_files Ex.bundleOne)) 'A'
            { title := lit "事業の内容",
              keywords := [lit "事業の内容", lit "DescriptionOfBusiness"],
              xbrl_elements := [lit "DescriptionOfBusinessTextBlock"] }) := by
  have h := C2_section_keys Ex.opsId Ex.bundleOne
  constructor
  · rw [h.1, if_pos ⟨rfl, by decide⟩]
  · exact h.2 'A' _ (by decide) rfl (by decide)

/-! ## Claim C7 (corrected) -/

theorem collect_text_blocks_eq_upserts (files : List XBRL.XmlFile) :
    XBRL.collect_text_blocks files = upserts [] (XBRL.gatedPairs files) := by
  have inner : ∀ (elems : List XBRL.XmlElem) (init : List (Str × Str)),
      elems.foldl
        (fun acc2 e =>
          if XBRL.collect_gate e then setKey acc2 e.local_tag e.text else acc2)
        init
      = upserts init
          (elems.filterMap
            (fun e => if XBRL.collect_gate e then some (e.local_tag, e.text) else none)) := by
    intro elems
    induction elems with
    | nil => intro init; rfl
    | cons e rest ih =>
      intro init
      simp only [List.foldl_cons, List.filterMap_cons]
      by_cases he : XBRL.collect_gate e
      · simpa [he] using ih (setKey init e.local_tag e.text)
      · simpa [he] using ih init
  have gen : ∀ (fs : List XBRL.XmlFile) (init : List (Str × Str)),
      fs.foldl
        (fun acc f =>
          match f.parse with
          | none => acc
          | some elems =>
            elems.foldl
              (fun acc2 e =>
                if XBRL.collect_gate e then setKey acc2 e.local_tag e.text else acc2)
              acc)
        init
      = upserts init (XBRL.gatedPairs fs) := by
    intro fs
    induction fs with
    | nil => intro init; rfl
    | cons f rest ih =>
      intro init
      simp only [List.foldl_cons]
      cases hp : f.parse with
      | none =>
        have hg : XBRL.gatedPairs (f :: rest) = XBRL.gatedPairs rest := by
          unfold XBRL.gatedPairs XBRL.scanned_elems
          rw [List.filterMap_cons]
          simp [hp]
        simp only [hp]
        rw [hg]
        exact ih init
      | some elems =>
        have hg : XBRL.gatedPairs (f :: rest)
            = (elems.filterMap
                (fun e => if XBRL.collect_gate e then some (e.local_tag, e.text) else none))
              ++ XBRL.gatedPairs rest := by
          unfold XBRL.gatedPairs XBRL.scanned_elems
          rw [List.filterMap_cons]
          simp [hp, List.filterMap_append]
        simp only [hp]
        rw [hg, inner elems init]
        have hsplit : upserts init
            ((elems.filterMap
               (fun e => if XBRL.collect_gate e then some (e.local_tag, e.text) else none))
             ++ XBRL.gatedPairs rest)
            = upserts (upserts init
                (elems.filterMap
                  (fun e => if XBRL.collect_gate e then some (e.local_tag, e.text) else none)))
                (XBRL.gatedPairs rest) := by
          unfold upserts
          rw [List.foldl_append]
        rw [hsplit]
        exact ih _
  exact gen files []

theorem lastWith_gatedPairs (elems : List XBRL.XmlElem) (tag : Str) :
    lastWith (fun p => p.1 = tag)
      (elems.filterMap
        (fun e => if XBRL.collect_gate e then some (e.local_tag, e.text) else none))
      = (lastWith (fun e => XBRL.collect_gate e && e.local_tag = tag) elems).map
          (fun e => (e.local_tag, e.text)) := by
  induction elems with
  | nil => rfl
  | cons e rest ih =>
    by_cases he : XBRL.collect_gate e <;>
      by_cases ht : e.local_tag = tag <;>
        cases hrec : lastWith (fun e => XBRL.collect_gate e && e.local_tag = tag) rest <;>
          simp [List.filterMap_cons, lastWith, he, ht, hrec, ih]

/-- C7 counterexample: two elements with the same tag and distinct
51-character texts — the collection keeps the text of the SECOND
(later) occurrence, so the first occurrence does not win. -/
theorem C7_counterexample :
    lookupKey (lit "FooTextBlock")
      (XBRL.collect_text_blocks
        [ { filename := lit "a.xml",
            parse := some
              [ { local_tag := lit "FooTextBlock", text := List.replicate 51 'a' },
                { local_tag := lit "FooTextBlock", text := List.replicate 51 'b' } ] } ])
      = some (List.replicate 51 'b')
    ∧ ¬ (List.replicate 51 'b' : Str) = List.replicate 51 'a' := by decide

/-- C7 as amended: an element's text is collected only when its tag
contains `TextBlock` and its decoded, tag-stripped text is non-empty and
longer than 50 characters, and on duplicate tag names the LAST passing
occurrence in scan order wins (later passing occurrences overwrite
earlier ones; occurrences failing the gate never do). -/
theorem C7_collection_gate_last_wins (files : List XBRL.XmlFile) (tag : Str) :
    lookupKey tag (XBRL.collect_text_blocks files)
      = (lastWith (fun e => XBRL.collect_gate e && e.local_tag = tag)
          (XBRL.scanned_elems files)).map (fun e => e.text) := by
  rw [collect_text_blocks_eq_upserts, lookupKey_upserts]
  unfold XBRL.gatedPairs
  rw [lastWith_gatedPairs]
  cases lastWith (fun e => XBRL.collect_gate e && e.local_tag = tag)
      (XBRL.scanned_elems files) with
  | none => rfl
  | some e => rfl

end JQR
